import Mathlib

set_option linter.unusedVariables false

/-!
Verification development for the AdvisorOS zen-tools repository: a shallow
embedding of the three domain workflow tools (`tax_calculation_review.py`,
`financial_compliance_audit.py`, `multi_tenant_security_check.py`), the CPA
tool registry (`registry.py`), the MCP dispatch of `server.py`, and the
Workflow State Machine of the specification.  Python string values are
transcribed byte for byte; machine integers are modelled as `Int`; optional
request attributes probed with `hasattr` are modelled as `Option`.
-/

namespace AdvisorOS

/-- A record of one investigation step (spec §3, `StepRecord`). -/
structure StepRecord where
  step_number : Int
  confidence : String
  actions_performed : List String
  deriving DecidableEq

/-- The accumulated evidence of one investigation (spec §3,
`ConsolidatedFindings`); the Python tools read its `findings` and
`relevant_files` attributes. -/
structure ConsolidatedFindings where
  findings : String
  relevant_files : List String
  steps_taken : List StepRecord
  deriving DecidableEq

/-- One declared input field of a tool schema: the `type`, `description` and
optional `default` entries of the dictionaries returned by `get_tool_fields`. -/
structure ToolField where
  type : String
  description : String
  default : Option String := none
  deriving DecidableEq

/-- Modelled from the spec: the shared `FILES_FIELD` schema fragment is supplied
by the `WorkflowTool` base class, which is not among the repository sources.
Spec §3 declares `files` as an optional ordered sequence of file-path strings
and documents no default for it. -/
def FILES_FIELD : ToolField :=
  { type := "array"
    description := "file paths relevant to this step"
    default := none }

/-- One invocation input (spec §3 `ToolRequest`; the Python
`tools.shared.base_models.ToolRequest`).  Attributes that the Python code
probes with `hasattr` are modelled as `Option`: `none` means absent. -/
structure ToolRequest where
  prompt : String
  step_number : Int := 1
  total_steps : Int := 1
  confidence : String := "exploring"
  findings : String := ""
  files : List String := []
  continuation_id : String := ""
  tax_year : Option String := none
  calculation_type : Option String := none
  compliance_standard : Option String := none
  audit_scope : Option String := none
  organization_context : Option String := none
  audit_focus : Option String := none
  threat_model : Option String := none
  compliance_requirements : Option String := none
  deriving DecidableEq

/-- The `{', '.join(relevant_files) if relevant_files else 'No specific files
provided'}` interpolation shared verbatim by the three
`prepare_expert_analysis_context` templates: the files joined by a comma and a
space when the list is non-empty, a fixed marker otherwise. -/
def files_part (relevant_files : List String) : String :=
  if relevant_files = [] then "No specific files provided"
  else String.intercalate ", " relevant_files

namespace TaxCalculationReviewTool

/-- `TaxCalculationReviewTool.get_name`. -/
def get_name : String := "tax-calculation-review"

/-- `TaxCalculationReviewTool.get_tool_fields`. -/
def get_tool_fields : List (String × ToolField) :=
  [("prompt",
    { type := "string"
      description := "Describe the tax calculation logic or issue you want reviewed" }),
   ("tax_year",
    { type := "string"
      description := "Tax year for regulation compliance (e.g., 2024)"
      default := some "2024" }),
   ("calculation_type",
    { type := "string"
      description := "Type of tax calculation (federal, state, payroll, corporate, etc.)"
      default := some "federal" }),
   ("files", FILES_FIELD)]

/-- `TaxCalculationReviewTool.get_required_fields`. -/
def get_required_fields : List String := ["prompt"]

/-- `TaxCalculationReviewTool.get_required_actions`.  The Python signature
annotates the unused `confidence` argument as `float`; it is embedded
polymorphically since the body never inspects it. -/
def get_required_actions {α : Type} (step_number : Int) (confidence : α)
    (findings : String) (total_steps : Int) : List String :=
  if step_number = 1 then
    ["Analyze the tax calculation logic and implementation",
     "Review code for tax regulation compliance",
     "Identify the tax calculation components and flow"]
  else if step_number = 2 then
    ["Validate calculations against IRS regulations and tax code",
     "Check for proper handling of deductions and credits",
     "Verify tax bracket calculations and thresholds"]
  else if step_number = 3 then
    ["Test edge cases and boundary conditions",
     "Validate multi-state and special scenario handling",
     "Check AMT (Alternative Minimum Tax) calculations if applicable"]
  else if step_number = 4 then
    ["Analyze performance and multi-tenant considerations",
     "Generate comprehensive test cases for validation",
     "Provide optimization recommendations and compliance summary"]
  else
    ["Finalize tax calculation review",
     "Generate compliance documentation",
     "Provide implementation recommendations"]

/-- `TaxCalculationReviewTool.should_call_expert_analysis`: always `True`. -/
def should_call_expert_analysis (consolidated_findings : ConsolidatedFindings) : Bool :=
  true

/-- Leading literal segment of the expert-analysis template. -/
def ctx_header : String :=
  "\nTAX CALCULATION EXPERT ANALYSIS REQUEST\n\nCONSOLIDATED INVESTIGATION FINDINGS:\n"

/-- Literal segment between the findings and the relevant-files interpolations. -/
def ctx_files_header : String := "\n\nRELEVANT FILES ANALYZED:\n"

/-- Literal segment introducing the expert-analysis checklist. -/
def ctx_intro : String :=
  "\n\nEXPERT ANALYSIS NEEDED:\nYou are a senior CPA with expertise in tax software development and IRS regulations. \nPlease provide expert analysis covering:\n\n"

/-- The fixed ordered checklist of analysis dimensions of the tax tool. -/
def expert_checklist : String :=
  "1. TAX COMPLIANCE VALIDATION\n   - Verify calculations align with current IRS regulations\n   - Validate tax bracket implementations\n   - Check deduction and credit calculations\n\n2. REGULATORY ADHERENCE  \n   - Confirm compliance with tax year regulations\n   - Validate business rule implementations\n   - Check for required disclosures and warnings\n\n3. EDGE CASE COVERAGE\n   - Identify potential calculation edge cases\n   - Validate boundary condition handling\n   - Check AMT and special scenario calculations\n\n4. MULTI-TENANT CONSIDERATIONS\n   - Validate organization-scoped tax calculations\n   - Check for data isolation in tax processing\n   - Verify performance at scale\n\n5. RECOMMENDATIONS\n   - Optimization opportunities\n   - Compliance improvements\n   - Testing strategies\n   - Documentation needs\n"

/-- Trailing literal segment of the expert-analysis template. -/
def ctx_tail : String :=
  "\nFocus on CPA software development best practices and multi-tenant architecture considerations.\n"

/-- `TaxCalculationReviewTool.prepare_expert_analysis_context`: the f-string
template split at its interpolation points (the named literal segments
concatenate to exactly the Python template text). -/
def prepare_expert_analysis_context (consolidated_findings : ConsolidatedFindings) : String :=
  ctx_header ++ consolidated_findings.findings
    ++ ctx_files_header ++ files_part consolidated_findings.relevant_files
    ++ ctx_intro ++ expert_checklist ++ ctx_tail

/-- The `tax_context` block built inside `TaxCalculationReviewTool.prepare_prompt`:
`request.tax_year if hasattr(request, 'tax_year') else '2024'` becomes
`request.tax_year.getD "2024"`, and likewise for `calculation_type`. -/
def tax_context (request : ToolRequest) : String :=
  "\nTAX CALCULATION REVIEW CONTEXT:\n- Tax Year: "
    ++ request.tax_year.getD "2024"
    ++ "\n- Calculation Type: "
    ++ request.calculation_type.getD "federal"
    ++ "\n- Multi-tenant CPA Platform: AdvisorOS\n- Focus: Compliance, accuracy, and multi-tenant performance\n\nANALYSIS REQUEST:\n"
    ++ request.prompt
    ++ "\n\nPlease begin the systematic tax calculation review process.\n"

/-- `TaxCalculationReviewTool.prepare_prompt`: `base_prompt` is produced by the
`WorkflowTool` base class (not among the sources) and is passed as a parameter. -/
def prepare_prompt (base_prompt : String) (request : ToolRequest) : String :=
  base_prompt ++ "\n\n" ++ tax_context request

end TaxCalculationReviewTool

namespace FinancialComplianceAuditTool

/-- `FinancialComplianceAuditTool.get_name`. -/
def get_name : String := "financial-compliance-audit"

/-- `FinancialComplianceAuditTool.get_tool_fields`. -/
def get_tool_fields : List (String × ToolField) :=
  [("prompt",
    { type := "string"
      description := "Describe the financial compliance area or specific compliance requirements to audit" }),
   ("compliance_standard",
    { type := "string"
      description := "Primary compliance standard to validate against (SOX, GAAP, IFRS, etc.)"
      default := some "SOX" }),
   ("audit_scope",
    { type := "string"
      description := "Scope of audit (financial-controls, audit-trails, reporting, data-security)"
      default := some "comprehensive" }),
   ("organization_context",
    { type := "string"
      description := "Organization type context (public-company, CPA-firm, financial-services)"
      default := some "CPA-firm" }),
   ("files", FILES_FIELD)]

/-- `FinancialComplianceAuditTool.get_required_fields`. -/
def get_required_fields : List String := ["prompt"]

/-- `FinancialComplianceAuditTool.get_required_actions`.  The Python signature
annotates the unused `confidence` argument as `float`; it is embedded
polymorphically since the body never inspects it. -/
def get_required_actions {α : Type} (step_number : Int) (confidence : α)
    (findings : String) (total_steps : Int) : List String :=
  if step_number = 1 then
    ["Analyze financial data handling and storage mechanisms",
     "Review audit trail implementation and completeness",
     "Identify financial control points and validation logic"]
  else if step_number = 2 then
    ["Validate SOX compliance requirements implementation",
     "Check internal financial controls and segregation of duties",
     "Review user access controls and authorization mechanisms"]
  else if step_number = 3 then
    ["Test data retention and backup procedures",
     "Validate financial reporting accuracy and completeness",
     "Check compliance documentation and audit evidence"]
  else if step_number = 4 then
    ["Analyze multi-tenant compliance isolation",
     "Test cross-organization access prevention",
     "Validate compliance reporting and monitoring capabilities"]
  else
    ["Generate comprehensive compliance assessment",
     "Document compliance gaps and recommendations",
     "Provide remediation roadmap and implementation guidance"]

/-- `FinancialComplianceAuditTool.should_call_expert_analysis`: always `True`. -/
def should_call_expert_analysis (consolidated_findings : ConsolidatedFindings) : Bool :=
  true

/-- Leading literal segment of the expert-analysis template. -/
def ctx_header : String :=
  "\nFINANCIAL COMPLIANCE EXPERT ANALYSIS REQUEST\n\nCONSOLIDATED AUDIT FINDINGS:\n"

/-- Literal segment between the findings and the relevant-files interpolations. -/
def ctx_files_header : String := "\n\nRELEVANT FINANCIAL SYSTEMS ANALYZED:\n"

/-- Literal segment introducing the expert-analysis checklist. -/
def ctx_intro : String :=
  "\n\nEXPERT COMPLIANCE ANALYSIS NEEDED:\nYou are a senior CPA with expertise in financial compliance, SOX regulations, and audit requirements.\nPlease provide expert analysis covering:\n\n"

/-- The fixed ordered checklist of analysis dimensions of the compliance tool. -/
def expert_checklist : String :=
  "1. SOX COMPLIANCE VALIDATION\n   - Verify Sarbanes-Oxley compliance implementation\n   - Validate internal financial controls effectiveness\n   - Check audit trail completeness and integrity\n\n2. FINANCIAL CONTROLS ASSESSMENT\n   - Evaluate segregation of duties implementation\n   - Validate authorization and approval workflows\n   - Check financial data access controls\n\n3. AUDIT TRAIL COMPLIANCE\n   - Verify comprehensive change tracking\n   - Validate data retention policies\n   - Check audit evidence completeness\n\n4. GAAP/IFRS ADHERENCE\n   - Validate financial reporting standards compliance\n   - Check accounting principle implementations\n   - Verify financial statement accuracy\n\n5. MULTI-TENANT COMPLIANCE\n   - Validate organization-scoped financial controls\n   - Check cross-tenant compliance isolation\n   - Verify compliance reporting capabilities\n\n6. REGULATORY RISK ASSESSMENT\n   - Identify compliance gaps and risks\n   - Recommend remediation strategies\n   - Provide implementation roadmap\n"

/-- Trailing literal segment of the expert-analysis template. -/
def ctx_tail : String :=
  "\nFocus on CPA platform compliance requirements and multi-tenant financial system architecture.\nProvide specific recommendations for achieving and maintaining compliance.\n"

/-- `FinancialComplianceAuditTool.prepare_expert_analysis_context`: the f-string
template split at its interpolation points (the named literal segments
concatenate to exactly the Python template text). -/
def prepare_expert_analysis_context (consolidated_findings : ConsolidatedFindings) : String :=
  ctx_header ++ consolidated_findings.findings
    ++ ctx_files_header ++ files_part consolidated_findings.relevant_files
    ++ ctx_intro ++ expert_checklist ++ ctx_tail

/-- The `compliance_context` block built inside
`FinancialComplianceAuditTool.prepare_prompt`; `hasattr` probing of the three
optional attributes becomes `Option.getD` with the literal fallbacks. -/
def compliance_context (request : ToolRequest) : String :=
  "\nFINANCIAL COMPLIANCE AUDIT CONTEXT:\n- Compliance Standard: "
    ++ request.compliance_standard.getD "SOX"
    ++ "\n- Audit Scope: "
    ++ request.audit_scope.getD "comprehensive"
    ++ "\n- Organization Context: "
    ++ request.organization_context.getD "CPA-firm"
    ++ "\n- Multi-tenant CPA Platform: AdvisorOS\n- Focus: Regulatory compliance, audit readiness, and financial controls\n\nCOMPLIANCE AUDIT REQUEST:\n"
    ++ request.prompt
    ++ "\n\nPlease begin the systematic financial compliance audit process with focus on regulatory requirements and multi-tenant architecture.\n"

/-- `FinancialComplianceAuditTool.prepare_prompt`: `base_prompt` is produced by
the `WorkflowTool` base class (not among the sources) and is passed as a
parameter. -/
def prepare_prompt (base_prompt : String) (request : ToolRequest) : String :=
  base_prompt ++ "\n\n" ++ compliance_context request

end FinancialComplianceAuditTool

namespace MultiTenantSecurityCheckTool

/-- `MultiTenantSecurityCheckTool.get_name`. -/
def get_name : String := "multi-tenant-security-check"

/-- `MultiTenantSecurityCheckTool.get_tool_fields`. -/
def get_tool_fields : List (String × ToolField) :=
  [("prompt",
    { type := "string"
      description := "Describe the security concern or specific multi-tenant security area to audit" }),
   ("audit_focus",
    { type := "string"
      description := "Primary security focus (data-isolation, rbac-validation, api-security, database-security)"
      default := some "comprehensive" }),
   ("threat_model",
    { type := "string"
      description := "Threat model context (insider-threat, external-attack, data-breach, privilege-escalation)"
      default := some "comprehensive" }),
   ("compliance_requirements",
    { type := "string"
      description := "Compliance requirements to validate (SOX, PCI-DSS, SOC2, GDPR)"
      default := some "SOX" }),
   ("files", FILES_FIELD)]

/-- `MultiTenantSecurityCheckTool.get_required_fields`. -/
def get_required_fields : List String := ["prompt"]

/-- `MultiTenantSecurityCheckTool.get_required_actions`.  The Python signature
annotates the unused `confidence` argument as `float`; it is embedded
polymorphically since the body never inspects it. -/
def get_required_actions {α : Type} (step_number : Int) (confidence : α)
    (findings : String) (total_steps : Int) : List String :=
  if step_number = 1 then
    ["Analyze database schema and organization relationships",
     "Review all Prisma queries for organizationId filtering",
     "Identify potential data isolation vulnerabilities"]
  else if step_number = 2 then
    ["Test tRPC procedures for proper tenant validation",
     "Validate organizationProcedure usage across API routes",
     "Check middleware implementation for tenant resolution"]
  else if step_number = 3 then
    ["Audit RBAC implementation and role hierarchy",
     "Test permission checking across different user roles",
     "Validate user authorization workflows and edge cases"]
  else if step_number = 4 then
    ["Test session security and JWT token validation",
     "Validate cross-tenant access prevention mechanisms",
     "Check for potential privilege escalation vulnerabilities"]
  else
    ["Conduct penetration testing scenarios",
     "Generate comprehensive security assessment report",
     "Provide remediation recommendations and security improvements"]

/-- `MultiTenantSecurityCheckTool.should_call_expert_analysis`: always `True`. -/
def should_call_expert_analysis (consolidated_findings : ConsolidatedFindings) : Bool :=
  true

/-- Leading literal segment of the expert-analysis template. -/
def ctx_header : String :=
  "\nMULTI-TENANT SECURITY EXPERT ANALYSIS REQUEST\n\nCONSOLIDATED SECURITY AUDIT FINDINGS:\n"

/-- Literal segment between the findings and the relevant-files interpolations. -/
def ctx_files_header : String := "\n\nRELEVANT SECURITY COMPONENTS ANALYZED:\n"

/-- Literal segment introducing the expert-analysis checklist. -/
def ctx_intro : String :=
  "\n\nEXPERT SECURITY ANALYSIS NEEDED:\nYou are a senior security architect with expertise in multi-tenant SaaS security and CPA platform compliance.\nPlease provide expert analysis covering:\n\n"

/-- The fixed ordered checklist of analysis dimensions of the security tool. -/
def expert_checklist : String :=
  "1. ORGANIZATION ISOLATION VALIDATION\n   - Verify organizationId filtering completeness\n   - Identify potential data leakage vulnerabilities\n   - Validate tenant isolation mechanisms\n\n2. RBAC SECURITY ASSESSMENT\n   - Evaluate role hierarchy implementation (owner > admin > cpa > staff > client)\n   - Validate permission checking mechanisms\n   - Test privilege escalation prevention\n\n3. API SECURITY VALIDATION\n   - Check tRPC procedure security implementation\n   - Validate middleware tenant resolution\n   - Test cross-tenant API access prevention\n\n4. DATABASE SECURITY AUDIT\n   - Verify Prisma schema organization relationships\n   - Validate composite indexing for security\n   - Check data cascade and integrity controls\n\n5. SESSION SECURITY ANALYSIS\n   - Evaluate JWT token security and claims validation\n   - Test session isolation between organizations\n   - Validate NextAuth.js multi-tenant configuration\n\n6. CPA PLATFORM SPECIFIC SECURITY\n   - Validate financial data access controls\n   - Check client confidentiality mechanisms\n   - Verify tax data isolation and protection\n\n7. COMPLIANCE SECURITY REQUIREMENTS\n   - Assess SOX security control requirements\n   - Validate audit trail security\n   - Check data retention and deletion security\n\n8. PENETRATION TESTING RESULTS\n   - Identify exploitable vulnerabilities\n   - Assess attack surface and risk levels\n   - Recommend security hardening measures\n"

/-- Trailing literal segment of the expert-analysis template. -/
def ctx_tail : String :=
  "\nProvide specific recommendations for enhancing multi-tenant security architecture.\nFocus on CPA platform requirements and regulatory compliance needs.\n"

/-- `MultiTenantSecurityCheckTool.prepare_expert_analysis_context`: the f-string
template split at its interpolation points (the named literal segments
concatenate to exactly the Python template text). -/
def prepare_expert_analysis_context (consolidated_findings : ConsolidatedFindings) : String :=
  ctx_header ++ consolidated_findings.findings
    ++ ctx_files_header ++ files_part consolidated_findings.relevant_files
    ++ ctx_intro ++ expert_checklist ++ ctx_tail

/-- The `security_context` block built inside
`MultiTenantSecurityCheckTool.prepare_prompt`; `hasattr` probing of the three
optional attributes becomes `Option.getD` with the literal fallbacks.  Note the
two trailing spaces after the threat-model interpolation, present in the
source. -/
def security_context (request : ToolRequest) : String :=
  "\nMULTI-TENANT SECURITY AUDIT CONTEXT:\n- Audit Focus: "
    ++ request.audit_focus.getD "comprehensive"
    ++ "\n- Threat Model: "
    ++ request.threat_model.getD "comprehensive"
    ++ "  \n- Compliance Requirements: "
    ++ request.compliance_requirements.getD "SOX"
    ++ "\n- Platform: AdvisorOS Multi-Tenant CPA Platform\n- Architecture: Next.js 15 + tRPC v10 + Prisma v5 + PostgreSQL + NextAuth.js\n- Focus: Organization isolation, RBAC validation, and CPA data security\n\nSECURITY AUDIT REQUEST:\n"
    ++ request.prompt
    ++ "\n\nPlease begin the systematic multi-tenant security audit process with focus on organization isolation and CPA platform security requirements.\n"

/-- `MultiTenantSecurityCheckTool.prepare_prompt`: `base_prompt` is produced by
the `WorkflowTool` base class (not among the sources) and is passed as a
parameter. -/
def prepare_prompt (base_prompt : String) (request : ToolRequest) : String :=
  base_prompt ++ "\n\n" ++ security_context request

end MultiTenantSecurityCheckTool

namespace registry

/-- One entry of the `CPA_TOOLS` dictionary of `registry.py`. -/
structure ToolInfo where
  name : String
  description : String
  category : String
  multi_tenant_aware : Bool
  deriving DecidableEq

/-- `registry.CPA_TOOLS`: the static CPA tool dictionary, in declaration order. -/
def CPA_TOOLS : List (String × ToolInfo) :=
  [("tax_calculation_review",
    { name := "Tax Calculation Review"
      description := "Automated review of tax calculation logic with compliance checking"
      category := "compliance"
      multi_tenant_aware := true }),
   ("financial_compliance_audit",
    { name := "Financial Compliance Audit"
      description := "Comprehensive audit of financial compliance (SOX, GAAP)"
      category := "audit"
      multi_tenant_aware := true }),
   ("multi_tenant_security_check",
    { name := "Multi-Tenant Security Check"
      description := "Security validation for organization isolation and RBAC"
      category := "security"
      multi_tenant_aware := true })]

/-- `registry.get_available_tools`: `list(CPA_TOOLS.keys())`. -/
def get_available_tools : List String := CPA_TOOLS.map Prod.fst

/-- `registry.get_tool_info`: `CPA_TOOLS.get(tool_name, None)` — a plain
dictionary lookup whose miss value is `None` (here `none`); no exception is
raised for unknown names. -/
def get_tool_info (tool_name : String) : Option ToolInfo :=
  CPA_TOOLS.lookup tool_name

end registry

namespace server

/-- An MCP text content block, as constructed by
`TextContent(type="text", text=...)`. -/
structure TextContent where
  type : String
  text : String
  deriving DecidableEq

/-- The argument mapping passed to `handle_call_tool`; only the keys the
dispatcher reads are modelled, `none` meaning the key is absent so that
`dict.get(key, fallback)` yields the fallback. -/
structure CallArguments where
  file_path : Option String := none
  tax_year : Option String := none
  component : Option String := none
  module : Option String := none
  standards : Option (List String) := none
  deriving DecidableEq

/-- The `analysis` report of the `analyze_tax_logic` branch of
`server.handle_call_tool`, split at its two interpolation points. -/
def analyze_tax_logic_report (file_path tax_year : String) : String :=
  "\nTax Logic Analysis for " ++ file_path
    ++ ":\n\n✅ COMPLIANCE CHECKS (" ++ tax_year
    ++ "):\n- Multi-tenant organization isolation: Required\n- Tax calculation accuracy: Must validate against IRS tables  \n- Audit trail generation: SOX compliance mandatory\n- Error handling: Graceful degradation required\n\n🔍 CODE REVIEW POINTS:\n1. Ensure all tax calculations use organizationId filtering\n2. Validate input sanitization for tax data\n3. Check proper error logging for audit trails\n4. Verify calculation precision for currency handling\n\n📋 RECOMMENDATIONS:\n- Implement automated testing against IRS test cases\n- Add comprehensive logging for all tax calculations\n- Ensure proper role-based access control (RBAC)\n- Consider caching for frequently used tax tables\n"

/-- The `audit_report` of the `audit_multi_tenant_security` branch of
`server.handle_call_tool` (`component.upper()` becomes `String.toUpper`). -/
def audit_multi_tenant_security_report (component : String) : String :=
  "\nMulti-Tenant Security Audit - " ++ component.toUpper
    ++ ":\n\n🔒 SECURITY ASSESSMENT:\n\nDATABASE LAYER:\n✅ Row-level security with organizationId\n✅ Composite indexes on (organizationId, ...)  \n✅ Connection pooling configured\n⚠️  Review: Ensure no cross-tenant data leaks\n\nAPI LAYER:\n✅ tRPC organization-scoped procedures\n✅ Middleware validates organization membership\n✅ Rate limiting per organization\n⚠️  Review: Authentication token validation\n\nAUTH LAYER:\n✅ NextAuth.js with organization context\n✅ Session includes organizationId\n✅ Role-based access control (RBAC)\n⚠️  Review: Session management and timeouts\n\n🎯 ACTION ITEMS:\n1. Run automated cross-tenant access tests\n2. Verify all database queries include organizationId\n3. Check API endpoints for proper authorization\n4. Audit user role assignments and permissions\n"

/-- The `compliance_report` of the `validate_cpa_compliance` branch of
`server.handle_call_tool` (the fetched `standards` list is never interpolated
into the report, exactly as in the source). -/
def validate_cpa_compliance_report (module : String) : String :=
  "\nCPA Compliance Validation - " ++ module
    ++ ":\n\n📊 STANDARDS COMPLIANCE:\n\nSOX (Sarbanes-Oxley):\n✅ Audit trail logging implemented\n✅ Change tracking for financial data  \n✅ User access controls documented\n⚠️  Review: Quarterly access reviews required\n\nGAAP (Generally Accepted Accounting Principles):\n✅ Consistent accounting methods\n✅ Revenue recognition properly implemented\n✅ Financial data integrity maintained\n⚠️  Review: Documentation of accounting policies\n\nCPA PROFESSIONAL STANDARDS:\n✅ Data confidentiality maintained\n✅ Professional competence requirements\n✅ Client data protection implemented\n⚠️  Review: Regular compliance training needed\n\n🎯 COMPLIANCE ACTION PLAN:\n1. Implement automated compliance monitoring\n2. Schedule quarterly compliance reviews\n3. Document all accounting policy decisions\n4. Maintain comprehensive audit trails\n5. Regular staff training on compliance requirements\n"

/-- `server.handle_call_tool`: name dispatch over the three declared tools; an
unhandled name returns a normal text content block `Unknown tool: {name}` —
the function never raises. -/
def handle_call_tool (name : String) (arguments : CallArguments) : List TextContent :=
  if name = "analyze_tax_logic" then
    let file_path := arguments.file_path.getD ""
    let tax_year := arguments.tax_year.getD "2024"
    [{ type := "text", text := analyze_tax_logic_report file_path tax_year }]
  else if name = "audit_multi_tenant_security" then
    let component := arguments.component.getD "database"
    [{ type := "text", text := audit_multi_tenant_security_report component }]
  else if name = "validate_cpa_compliance" then
    let module := arguments.module.getD ""
    let standards := arguments.standards.getD ["SOX", "GAAP"]
    [{ type := "text", text := validate_cpa_compliance_report module }]
  else
    [{ type := "text", text := "Unknown tool: " ++ name }]

end server

namespace workflow

/-- The error kinds of spec §7. -/
inductive WorkflowError where
  | validationError (message : String)
  | stateError (message : String)
  | notFoundError (message : String)
  deriving DecidableEq

/-- The outcome of one `submit_step` call (spec §4.1). -/
inductive StepOutcome where
  | awaiting_next_step (required_actions : List String)
  | complete_awaiting_expert (rendered_context : String)
  | complete (final : ConsolidatedFindings)
  deriving DecidableEq

/-- The per-continuation store of consolidated findings, keyed by
continuation id. -/
abbrev Store : Type := List (String × ConsolidatedFindings)

/-- Replace (or insert) the entry of one continuation id. -/
def store_set (store : Store) (continuation_id : String)
    (cf : ConsolidatedFindings) : Store :=
  (continuation_id, cf) :: store.filter (fun p => p.1 ≠ continuation_id)

/-- Modelled from the spec: Findings Store `append` (§4.2) — concatenates the
step findings text behind a step-boundary marker and merges `files` into the
ordered relevant-files set by first-seen order, duplicates removed; the exact
marker text is unspecified by the spec. -/
def append_step (cf : ConsolidatedFindings) (request : ToolRequest) :
    ConsolidatedFindings :=
  { findings := cf.findings ++ "\n\n--- Step " ++ toString request.step_number
      ++ " ---\n" ++ request.findings
    relevant_files :=
      request.files.foldl (fun acc f => if f ∈ acc then acc else acc ++ [f])
        cf.relevant_files
    steps_taken := cf.steps_taken ++
      [{ step_number := request.step_number
         confidence := request.confidence
         actions_performed := [] }] }

/-- The freshly created consolidated findings of a new investigation. -/
def empty_findings : ConsolidatedFindings :=
  { findings := "", relevant_files := [], steps_taken := [] }

/-- Modelled from the spec: `submit_step` of the Workflow State Machine
(§4.1); the `WorkflowTool` base class implementing the engine is not among the
repository sources.  Validates the prompt and step number, resolves the
consolidated findings for the continuation id (creating one when absent and
`step_number == 1`, failing with a `StateError` when absent and
`step_number > 1`), appends the step, asks the Step Policy for the required
actions, and finalizes through the Expert Analysis Gate when
`confidence == certain` or `step_number == total_steps`. -/
def submit_step
    (get_required_actions : Int → String → String → Int → List String)
    (should_call_expert_analysis : ConsolidatedFindings → Bool)
    (prepare_expert_analysis_context : ConsolidatedFindings → String)
    (store : Store) (request : ToolRequest) :
    Except WorkflowError StepOutcome × Store :=
  if request.prompt = "" then
    (Except.error (WorkflowError.validationError "prompt is required and must be non-empty"), store)
  else if request.step_number < 1 then
    (Except.error (WorkflowError.validationError "step_number must be at least 1"), store)
  else
    let proceed : ConsolidatedFindings → Except WorkflowError StepOutcome × Store :=
      fun resolved =>
        let cf := append_step resolved request
        let actions := get_required_actions request.step_number request.confidence
          request.findings request.total_steps
        if request.confidence = "certain" ∨ request.step_number = request.total_steps then
          if should_call_expert_analysis cf then
            (Except.ok (StepOutcome.complete_awaiting_expert (prepare_expert_analysis_context cf)),
             store_set store request.continuation_id cf)
          else
            (Except.ok (StepOutcome.complete cf),
             store.filter (fun p => p.1 ≠ request.continuation_id))
        else
          (Except.ok (StepOutcome.awaiting_next_step actions),
           store_set store request.continuation_id cf)
    match store.lookup request.continuation_id with
    | some resolved => proceed resolved
    | none =>
        if request.step_number = 1 then proceed empty_findings
        else
          (Except.error (WorkflowError.stateError "no prior step for this continuation_id"), store)

end workflow

/-! Helper notions and lemmas -/

/-- `contains_substring s sub` holds when `sub` occurs verbatim inside `s`. -/
def contains_substring (s sub : String) : Prop :=
  ∃ pre post, s = pre ++ sub ++ post

theorem contains_substring_of_parts (s pre sub post : String)
    (h : s = pre ++ sub ++ post) : contains_substring s sub :=
  ⟨pre, post, h⟩

theorem files_part_of_ne (relevant_files : List String) (h : relevant_files ≠ []) :
    files_part relevant_files = String.intercalate ", " relevant_files := by
  unfold files_part
  rw [if_neg h]

theorem files_part_of_empty : files_part [] = "No specific files provided" := rfl

/-- Claim C1: for each of the three domain tools, `get_required_actions` is
determined purely by `step_number` — two calls sharing a step number but with
arbitrary, possibly different confidence, findings and total-steps arguments
return the identical action list. -/
theorem get_required_actions_depends_only_on_step_number {α β : Type}
    (step_number : Int) (c₁ : α) (c₂ : β) (findings₁ findings₂ : String)
    (total₁ total₂ : Int) :
    TaxCalculationReviewTool.get_required_actions step_number c₁ findings₁ total₁ =
        TaxCalculationReviewTool.get_required_actions step_number c₂ findings₂ total₂ ∧
    FinancialComplianceAuditTool.get_required_actions step_number c₁ findings₁ total₁ =
        FinancialComplianceAuditTool.get_required_actions step_number c₂ findings₂ total₂ ∧
    MultiTenantSecurityCheckTool.get_required_actions step_number c₁ findings₁ total₁ =
        MultiTenantSecurityCheckTool.get_required_actions step_number c₂ findings₂ total₂ :=
  ⟨rfl, rfl, rfl⟩

/-- Claim C2: for each of the three domain tools and every consolidated
findings value, `should_call_expert_analysis` returns `true`. -/
theorem should_call_expert_analysis_always_true (consolidated : ConsolidatedFindings) :
    TaxCalculationReviewTool.should_call_expert_analysis consolidated = true ∧
    FinancialComplianceAuditTool.should_call_expert_analysis consolidated = true ∧
    MultiTenantSecurityCheckTool.should_call_expert_analysis consolidated = true :=
  ⟨rfl, rfl, rfl⟩

/-- Claim C5: for each of the three domain tools,
`prepare_expert_analysis_context` is pure — on consolidated findings agreeing
in the findings text and the relevant-files sequence (in particular, whatever
the remaining state such as `steps_taken` holds) the rendered strings are
identical. -/
theorem prepare_expert_analysis_context_is_pure (cf₁ cf₂ : ConsolidatedFindings)
    (hfind : cf₁.findings = cf₂.findings)
    (hfiles : cf₁.relevant_files = cf₂.relevant_files) :
    TaxCalculationReviewTool.prepare_expert_analysis_context cf₁ =
        TaxCalculationReviewTool.prepare_expert_analysis_context cf₂ ∧
    FinancialComplianceAuditTool.prepare_expert_analysis_context cf₁ =
        FinancialComplianceAuditTool.prepare_expert_analysis_context cf₂ ∧
    MultiTenantSecurityCheckTool.prepare_expert_analysis_context cf₁ =
        MultiTenantSecurityCheckTool.prepare_expert_analysis_context cf₂ := by
  refine ⟨?_, ?_, ?_⟩ <;>
    simp only [TaxCalculationReviewTool.prepare_expert_analysis_context,
      FinancialComplianceAuditTool.prepare_expert_analysis_context,
      MultiTenantSecurityCheckTool.prepare_expert_analysis_context, hfind, hfiles]

/-- Witness for C5: two consolidated findings differing only in `steps_taken`
render to the identical context in all three tools. -/
theorem prepare_expert_analysis_context_is_pure_witness :
    TaxCalculationReviewTool.prepare_expert_analysis_context ⟨"x", ["f.py"], []⟩ =
        TaxCalculationReviewTool.prepare_expert_analysis_context
          ⟨"x", ["f.py"], [⟨1, "low", []⟩]⟩ ∧
    FinancialComplianceAuditTool.prepare_expert_analysis_context ⟨"x", ["f.py"], []⟩ =
        FinancialComplianceAuditTool.prepare_expert_analysis_context
          ⟨"x", ["f.py"], [⟨1, "low", []⟩]⟩ ∧
    MultiTenantSecurityCheckTool.prepare_expert_analysis_context ⟨"x", ["f.py"], []⟩ =
        MultiTenantSecurityCheckTool.prepare_expert_analysis_context
          ⟨"x", ["f.py"], [⟨1, "low", []⟩]⟩ :=
  prepare_expert_analysis_context_is_pure _ _ rfl rfl

/-- Claim C6: for each of the three domain tools the Step Policy explicitly
enumerates phases 1 to 4, each with its own three required actions, and every
step number greater than or equal to 5 receives the same fixed fallback list of
three actions. -/
theorem step_policy_enumerates_phases_one_to_four_with_catch_all {α : Type}
    (confidence : α) (findings : String) (total_steps : Int) :
    (TaxCalculationReviewTool.get_required_actions 1 confidence findings total_steps =
        ["Analyze the tax calculation logic and implementation",
         "Review code for tax regulation compliance",
         "Identify the tax calculation components and flow"] ∧
     TaxCalculationReviewTool.get_required_actions 2 confidence findings total_steps =
        ["Validate calculations against IRS regulations and tax code",
         "Check for proper handling of deductions and credits",
         "Verify tax bracket calculations and thresholds"] ∧
     TaxCalculationReviewTool.get_required_actions 3 confidence findings total_steps =
        ["Test edge cases and boundary conditions",
         "Validate multi-state and special scenario handling",
         "Check AMT (Alternative Minimum Tax) calculations if applicable"] ∧
     TaxCalculationReviewTool.get_required_actions 4 confidence findings total_steps =
        ["Analyze performance and multi-tenant considerations",
         "Generate comprehensive test cases for validation",
         "Provide optimization recommendations and compliance summary"] ∧
     ∀ step_number : Int, 5 ≤ step_number →
        TaxCalculationReviewTool.get_required_actions step_number confidence findings total_steps =
          ["Finalize tax calculation review",
           "Generate compliance documentation",
           "Provide implementation recommendations"]) ∧
    (FinancialComplianceAuditTool.get_required_actions 1 confidence findings total_steps =
        ["Analyze financial data handling and storage mechanisms",
         "Review audit trail implementation and completeness",
         "Identify financial control points and validation logic"] ∧
     FinancialComplianceAuditTool.get_required_actions 2 confidence findings total_steps =
        ["Validate SOX compliance requirements implementation",
         "Check internal financial controls and segregation of duties",
         "Review user access controls and authorization mechanisms"] ∧
     FinancialComplianceAuditTool.get_required_actions 3 confidence findings total_steps =
        ["Test data retention and backup procedures",
         "Validate financial reporting accuracy and completeness",
         "Check compliance documentation and audit evidence"] ∧
     FinancialComplianceAuditTool.get_required_actions 4 confidence findings total_steps =
        ["Analyze multi-tenant compliance isolation",
         "Test cross-organization access prevention",
         "Validate compliance reporting and monitoring capabilities"] ∧
     ∀ step_number : Int, 5 ≤ step_number →
        FinancialComplianceAuditTool.get_required_actions step_number confidence findings total_steps =
          ["Generate comprehensive compliance assessment",
           "Document compliance gaps and recommendations",
           "Provide remediation roadmap and implementation guidance"]) ∧
    (MultiTenantSecurityCheckTool.get_required_actions 1 confidence findings total_steps =
        ["Analyze database schema and organization relationships",
         "Review all Prisma queries for organizationId filtering",
         "Identify potential data isolation vulnerabilities"] ∧
     MultiTenantSecurityCheckTool.get_required_actions 2 confidence findings total_steps =
        ["Test tRPC procedures for proper tenant validation",
         "Validate organizationProcedure usage across API routes",
         "Check middleware implementation for tenant resolution"] ∧
     MultiTenantSecurityCheckTool.get_required_actions 3 confidence findings total_steps =
        ["Audit RBAC implementation and role hierarchy",
         "Test permission checking across different user roles",
         "Validate user authorization workflows and edge cases"] ∧
     MultiTenantSecurityCheckTool.get_required_actions 4 confidence findings total_steps =
        ["Test session security and JWT token validation",
         "Validate cross-tenant access prevention mechanisms",
         "Check for potential privilege escalation vulnerabilities"] ∧
     ∀ step_number : Int, 5 ≤ step_number →
        MultiTenantSecurityCheckTool.get_required_actions step_number confidence findings total_steps =
          ["Conduct penetration testing scenarios",
           "Generate comprehensive security assessment report",
           "Provide remediation recommendations and security improvements"]) := by
  refine ⟨⟨rfl, rfl, rfl, rfl, ?_⟩, ⟨rfl, rfl, rfl, rfl, ?_⟩, ⟨rfl, rfl, rfl, rfl, ?_⟩⟩
  · intro s hs
    unfold TaxCalculationReviewTool.get_required_actions
    rw [if_neg (by omega : ¬s = 1), if_neg (by omega : ¬s = 2),
      if_neg (by omega : ¬s = 3), if_neg (by omega : ¬s = 4)]
  · intro s hs
    unfold FinancialComplianceAuditTool.get_required_actions
    rw [if_neg (by omega : ¬s = 1), if_neg (by omega : ¬s = 2),
      if_neg (by omega : ¬s = 3), if_neg (by omega : ¬s = 4)]
  · intro s hs
    unfold MultiTenantSecurityCheckTool.get_required_actions
    rw [if_neg (by omega : ¬s = 1), if_neg (by omega : ¬s = 2),
      if_neg (by omega : ¬s = 3), if_neg (by omega : ¬s = 4)]

/-- Witness for C6: step 9 of each tool receives the catch-all fallback list. -/
theorem step_policy_catch_all_witness :
    TaxCalculationReviewTool.get_required_actions (9 : Int) "exploring" "notes" (4 : Int) =
      ["Finalize tax calculation review",
       "Generate compliance documentation",
       "Provide implementation recommendations"] ∧
    FinancialComplianceAuditTool.get_required_actions (9 : Int) "exploring" "notes" (4 : Int) =
      ["Generate comprehensive compliance assessment",
       "Document compliance gaps and recommendations",
       "Provide remediation roadmap and implementation guidance"] ∧
    MultiTenantSecurityCheckTool.get_required_actions (9 : Int) "exploring" "notes" (4 : Int) =
      ["Conduct penetration testing scenarios",
       "Generate comprehensive security assessment report",
       "Provide remediation recommendations and security improvements"] :=
  ⟨(step_policy_enumerates_phases_one_to_four_with_catch_all "exploring" "notes" 4).1.2.2.2.2
      9 (by decide),
   (step_policy_enumerates_phases_one_to_four_with_catch_all "exploring" "notes" 4).2.1.2.2.2.2
      9 (by decide),
   (step_policy_enumerates_phases_one_to_four_with_catch_all "exploring" "notes" 4).2.2.2.2.2.2
      9 (by decide)⟩

/-- Claim C9: for each of the three domain tools, `get_required_actions` is
total over every integer step number — it always returns a list of exactly
three action strings, and step numbers below 1 receive the catch-all fallback
list rather than a validation failure. -/
theorem get_required_actions_total_with_fallback_below_one {α : Type}
    (step_number : Int) (confidence : α) (findings : String) (total_steps : Int) :
    ((TaxCalculationReviewTool.get_required_actions step_number confidence findings total_steps).length = 3 ∧
      (step_number < 1 →
        TaxCalculationReviewTool.get_required_actions step_number confidence findings total_steps =
          ["Finalize tax calculation review",
           "Generate compliance documentation",
           "Provide implementation recommendations"])) ∧
    ((FinancialComplianceAuditTool.get_required_actions step_number confidence findings total_steps).length = 3 ∧
      (step_number < 1 →
        FinancialComplianceAuditTool.get_required_actions step_number confidence findings total_steps =
          ["Generate comprehensive compliance assessment",
           "Document compliance gaps and recommendations",
           "Provide remediation roadmap and implementation guidance"])) ∧
    ((MultiTenantSecurityCheckTool.get_required_actions step_number confidence findings total_steps).length = 3 ∧
      (step_number < 1 →
        MultiTenantSecurityCheckTool.get_required_actions step_number confidence findings total_steps =
          ["Conduct penetration testing scenarios",
           "Generate comprehensive security assessment report",
           "Provide remediation recommendations and security improvements"])) := by
  refine ⟨⟨?_, ?_⟩, ⟨?_, ?_⟩, ⟨?_, ?_⟩⟩
  · unfold TaxCalculationReviewTool.get_required_actions
    split_ifs <;> rfl
  · intro h
    unfold TaxCalculationReviewTool.get_required_actions
    rw [if_neg (by omega : ¬step_number = 1), if_neg (by omega : ¬step_number = 2),
      if_neg (by omega : ¬step_number = 3), if_neg (by omega : ¬step_number = 4)]
  · unfold FinancialComplianceAuditTool.get_required_actions
    split_ifs <;> rfl
  · intro h
    unfold FinancialComplianceAuditTool.get_required_actions
    rw [if_neg (by omega : ¬step_number = 1), if_neg (by omega : ¬step_number = 2),
      if_neg (by omega : ¬step_number = 3), if_neg (by omega : ¬step_number = 4)]
  · unfold MultiTenantSecurityCheckTool.get_required_actions
    split_ifs <;> rfl
  · intro h
    unfold MultiTenantSecurityCheckTool.get_required_actions
    rw [if_neg (by omega : ¬step_number = 1), if_neg (by omega : ¬step_number = 2),
      if_neg (by omega : ¬step_number = 3), if_neg (by omega : ¬step_number = 4)]

/-- Claim C3: for each of the three domain tools and every consolidated
findings value, the rendered expert context contains the findings text
verbatim; when the relevant-files list is non-empty it contains the files
joined in order by a comma and a space, and when empty it contains the marker
`No specific files provided`; and it contains the fixed ordered checklist of
analysis dimensions of the tool. -/
theorem expert_context_contains_findings_files_and_checklist
    (cf : ConsolidatedFindings) :
    (contains_substring (TaxCalculationReviewTool.prepare_expert_analysis_context cf)
        cf.findings ∧
     (cf.relevant_files ≠ [] →
       contains_substring (TaxCalculationReviewTool.prepare_expert_analysis_context cf)
         (String.intercalate ", " cf.relevant_files)) ∧
     (cf.relevant_files = [] →
       contains_substring (TaxCalculationReviewTool.prepare_expert_analysis_context cf)
         "No specific files provided") ∧
     contains_substring (TaxCalculationReviewTool.prepare_expert_analysis_context cf)
       TaxCalculationReviewTool.expert_checklist) ∧
    (contains_substring (FinancialComplianceAuditTool.prepare_expert_analysis_context cf)
        cf.findings ∧
     (cf.relevant_files ≠ [] →
       contains_substring (FinancialComplianceAuditTool.prepare_expert_analysis_context cf)
         (String.intercalate ", " cf.relevant_files)) ∧
     (cf.relevant_files = [] →
       contains_substring (FinancialComplianceAuditTool.prepare_expert_analysis_context cf)
         "No specific files provided") ∧
     contains_substring (FinancialComplianceAuditTool.prepare_expert_analysis_context cf)
       FinancialComplianceAuditTool.expert_checklist) ∧
    (contains_substring (MultiTenantSecurityCheckTool.prepare_expert_analysis_context cf)
        cf.findings ∧
     (cf.relevant_files ≠ [] →
       contains_substring (MultiTenantSecurityCheckTool.prepare_expert_analysis_context cf)
         (String.intercalate ", " cf.relevant_files)) ∧
     (cf.relevant_files = [] →
       contains_substring (MultiTenantSecurityCheckTool.prepare_expert_analysis_context cf)
         "No specific files provided") ∧
     contains_substring (MultiTenantSecurityCheckTool.prepare_expert_analysis_context cf)
       MultiTenantSecurityCheckTool.expert_checklist) := by
  refine ⟨⟨?_, ?_, ?_, ?_⟩, ⟨?_, ?_, ?_, ?_⟩, ⟨?_, ?_, ?_, ?_⟩⟩
  · exact contains_substring_of_parts _ TaxCalculationReviewTool.ctx_header _
      (TaxCalculationReviewTool.ctx_files_header ++ files_part cf.relevant_files ++
        TaxCalculationReviewTool.ctx_intro ++ TaxCalculationReviewTool.expert_checklist ++
        TaxCalculationReviewTool.ctx_tail)
      (by simp only [TaxCalculationReviewTool.prepare_expert_analysis_context,
            String.append_assoc])
  · intro h
    exact contains_substring_of_parts _
      (TaxCalculationReviewTool.ctx_header ++ cf.findings ++
        TaxCalculationReviewTool.ctx_files_header) _
      (TaxCalculationReviewTool.ctx_intro ++ TaxCalculationReviewTool.expert_checklist ++
        TaxCalculationReviewTool.ctx_tail)
      (by simp only [TaxCalculationReviewTool.prepare_expert_analysis_context,
            files_part_of_ne _ h, String.append_assoc])
  · intro h
    exact contains_substring_of_parts _
      (TaxCalculationReviewTool.ctx_header ++ cf.findings ++
        TaxCalculationReviewTool.ctx_files_header) _
      (TaxCalculationReviewTool.ctx_intro ++ TaxCalculationReviewTool.expert_checklist ++
        TaxCalculationReviewTool.ctx_tail)
      (by simp only [TaxCalculationReviewTool.prepare_expert_analysis_context, h,
            files_part_of_empty, String.append_assoc])
  · exact contains_substring_of_parts _
      (TaxCalculationReviewTool.ctx_header ++ cf.findings ++
        TaxCalculationReviewTool.ctx_files_header ++ files_part cf.relevant_files ++
        TaxCalculationReviewTool.ctx_intro) _
      TaxCalculationReviewTool.ctx_tail
      (by simp only [TaxCalculationReviewTool.prepare_expert_analysis_context,
            String.append_assoc])
  · exact contains_substring_of_parts _ FinancialComplianceAuditTool.ctx_header _
      (FinancialComplianceAuditTool.ctx_files_header ++ files_part cf.relevant_files ++
        FinancialComplianceAuditTool.ctx_intro ++ FinancialComplianceAuditTool.expert_checklist ++
        FinancialComplianceAuditTool.ctx_tail)
      (by simp only [FinancialComplianceAuditTool.prepare_expert_analysis_context,
            String.append_assoc])
  · intro h
    exact contains_substring_of_parts _
      (FinancialComplianceAuditTool.ctx_header ++ cf.findings ++
        FinancialComplianceAuditTool.ctx_files_header) _
      (FinancialComplianceAuditTool.ctx_intro ++ FinancialComplianceAuditTool.expert_checklist ++
        FinancialComplianceAuditTool.ctx_tail)
      (by simp only [FinancialComplianceAuditTool.prepare_expert_analysis_context,
            files_part_of_ne _ h, String.append_assoc])
  · intro h
    exact contains_substring_of_parts _
      (FinancialComplianceAuditTool.ctx_header ++ cf.findings ++
        FinancialComplianceAuditTool.ctx_files_header) _
      (FinancialComplianceAuditTool.ctx_intro ++ FinancialComplianceAuditTool.expert_checklist ++
        FinancialComplianceAuditTool.ctx_tail)
      (by simp only [FinancialComplianceAuditTool.prepare_expert_analysis_context, h,
            files_part_of_empty, String.append_assoc])
  · exact contains_substring_of_parts _
      (FinancialComplianceAuditTool.ctx_header ++ cf.findings ++
        FinancialComplianceAuditTool.ctx_files_header ++ files_part cf.relevant_files ++
        FinancialComplianceAuditTool.ctx_intro) _
      FinancialComplianceAuditTool.ctx_tail
      (by simp only [FinancialComplianceAuditTool.prepare_expert_analysis_context,
            String.append_assoc])
  · exact contains_substring_of_parts _ MultiTenantSecurityCheckTool.ctx_header _
      (MultiTenantSecurityCheckTool.ctx_files_header ++ files_part cf.relevant_files ++
        MultiTenantSecurityCheckTool.ctx_intro ++ MultiTenantSecurityCheckTool.expert_checklist ++
        MultiTenantSecurityCheckTool.ctx_tail)
      (by simp only [MultiTenantSecurityCheckTool.prepare_expert_analysis_context,
            String.append_assoc])
  · intro h
    exact contains_substring_of_parts _
      (MultiTenantSecurityCheckTool.ctx_header ++ cf.findings ++
        MultiTenantSecurityCheckTool.ctx_files_header) _
      (MultiTenantSecurityCheckTool.ctx_intro ++ MultiTenantSecurityCheckTool.expert_checklist ++
        MultiTenantSecurityCheckTool.ctx_tail)
      (by simp only [MultiTenantSecurityCheckTool.prepare_expert_analysis_context,
            files_part_of_ne _ h, String.append_assoc])
  · intro h
    exact contains_substring_of_parts _
      (MultiTenantSecurityCheckTool.ctx_header ++ cf.findings ++
        MultiTenantSecurityCheckTool.ctx_files_header) _
      (MultiTenantSecurityCheckTool.ctx_intro ++ MultiTenantSecurityCheckTool.expert_checklist ++
        MultiTenantSecurityCheckTool.ctx_tail)
      (by simp only [MultiTenantSecurityCheckTool.prepare_expert_analysis_context, h,
            files_part_of_empty, String.append_assoc])
  · exact contains_substring_of_parts _
      (MultiTenantSecurityCheckTool.ctx_header ++ cf.findings ++
        MultiTenantSecurityCheckTool.ctx_files_header ++ files_part cf.relevant_files ++
        MultiTenantSecurityCheckTool.ctx_intro) _
      MultiTenantSecurityCheckTool.ctx_tail
      (by simp only [MultiTenantSecurityCheckTool.prepare_expert_analysis_context,
            String.append_assoc])

/-- Witness for C3: concrete renderings contain the findings text, the joined
file list (non-empty case), the no-files marker (empty case), and the
checklist, in each tool. -/
theorem expert_context_contains_witness :
    (contains_substring
        (TaxCalculationReviewTool.prepare_expert_analysis_context
          ⟨"FINDINGS", ["a.py", "b.py"], []⟩) "FINDINGS" ∧
     contains_substring
        (TaxCalculationReviewTool.prepare_expert_analysis_context
          ⟨"FINDINGS", ["a.py", "b.py"], []⟩) (String.intercalate ", " ["a.py", "b.py"]) ∧
     contains_substring
        (TaxCalculationReviewTool.prepare_expert_analysis_context ⟨"F", [], []⟩)
        "No specific files provided" ∧
     contains_substring
        (TaxCalculationReviewTool.prepare_expert_analysis_context
          ⟨"FINDINGS", ["a.py", "b.py"], []⟩) TaxCalculationReviewTool.expert_checklist) ∧
    (contains_substring
        (FinancialComplianceAuditTool.prepare_expert_analysis_context
          ⟨"FINDINGS", ["a.py", "b.py"], []⟩) "FINDINGS" ∧
     contains_substring
        (FinancialComplianceAuditTool.prepare_expert_analysis_context
          ⟨"FINDINGS", ["a.py", "b.py"], []⟩) (String.intercalate ", " ["a.py", "b.py"]) ∧
     contains_substring
        (FinancialComplianceAuditTool.prepare_expert_analysis_context ⟨"F", [], []⟩)
        "No specific files provided" ∧
     contains_substring
        (FinancialComplianceAuditTool.prepare_expert_analysis_context
          ⟨"FINDINGS", ["a.py", "b.py"], []⟩) FinancialComplianceAuditTool.expert_checklist) ∧
    (contains_substring
        (MultiTenantSecurityCheckTool.prepare_expert_analysis_context
          ⟨"FINDINGS", ["a.py", "b.py"], []⟩) "FINDINGS" ∧
     contains_substring
        (MultiTenantSecurityCheckTool.prepare_expert_analysis_context
          ⟨"FINDINGS", ["a.py", "b.py"], []⟩) (String.intercalate ", " ["a.py", "b.py"]) ∧
     contains_substring
        (MultiTenantSecurityCheckTool.prepare_expert_analysis_context ⟨"F", [], []⟩)
        "No specific files provided" ∧
     contains_substring
        (MultiTenantSecurityCheckTool.prepare_expert_analysis_context
          ⟨"FINDINGS", ["a.py", "b.py"], []⟩) MultiTenantSecurityCheckTool.expert_checklist) :=
  ⟨⟨(expert_context_contains_findings_files_and_checklist
        ⟨"FINDINGS", ["a.py", "b.py"], []⟩).1.1,
    (expert_context_contains_findings_files_and_checklist
        ⟨"FINDINGS", ["a.py", "b.py"], []⟩).1.2.1 (by decide),
    (expert_context_contains_findings_files_and_checklist ⟨"F", [], []⟩).1.2.2.1 rfl,
    (expert_context_contains_findings_files_and_checklist
        ⟨"FINDINGS", ["a.py", "b.py"], []⟩).1.2.2.2⟩,
   ⟨(expert_context_contains_findings_files_and_checklist
        ⟨"FINDINGS", ["a.py", "b.py"], []⟩).2.1.1,
    (expert_context_contains_findings_files_and_checklist
        ⟨"FINDINGS", ["a.py", "b.py"], []⟩).2.1.2.1 (by decide),
    (expert_context_contains_findings_files_and_checklist ⟨"F", [], []⟩).2.1.2.2.1 rfl,
    (expert_context_contains_findings_files_and_checklist
        ⟨"FINDINGS", ["a.py", "b.py"], []⟩).2.1.2.2.2⟩,
   ⟨(expert_context_contains_findings_files_and_checklist
        ⟨"FINDINGS", ["a.py", "b.py"], []⟩).2.2.1,
    (expert_context_contains_findings_files_and_checklist
        ⟨"FINDINGS", ["a.py", "b.py"], []⟩).2.2.2.1 (by decide),
    (expert_context_contains_findings_files_and_checklist ⟨"F", [], []⟩).2.2.2.2.1 rfl,
    (expert_context_contains_findings_files_and_checklist
        ⟨"FINDINGS", ["a.py", "b.py"], []⟩).2.2.2.2.2⟩⟩

/-- Witness for C9: step 0 yields the three-element catch-all fallback list in
each tool. -/
theorem get_required_actions_at_zero_witness :
    TaxCalculationReviewTool.get_required_actions (0 : Int) "exploring" "notes" (4 : Int) =
      ["Finalize tax calculation review",
       "Generate compliance documentation",
       "Provide implementation recommendations"] ∧
    FinancialComplianceAuditTool.get_required_actions (0 : Int) "exploring" "notes" (4 : Int) =
      ["Generate comprehensive compliance assessment",
       "Document compliance gaps and recommendations",
       "Provide remediation roadmap and implementation guidance"] ∧
    MultiTenantSecurityCheckTool.get_required_actions (0 : Int) "exploring" "notes" (4 : Int) =
      ["Conduct penetration testing scenarios",
       "Generate comprehensive security assessment report",
       "Provide remediation recommendations and security improvements"] :=
  ⟨(get_required_actions_total_with_fallback_below_one 0 "exploring" "notes" 4).1.2 (by decide),
   (get_required_actions_total_with_fallback_below_one 0 "exploring" "notes" 4).2.1.2 (by decide),
   (get_required_actions_total_with_fallback_below_one 0 "exploring" "notes" 4).2.2.2 (by decide)⟩

/-- Claim C7: a `ToolRequest` with `step_number > 1` submitted under a
continuation id with no prior step fails with a `StateError`, and the store is
unaffected.  The non-empty-prompt hypothesis is the `ToolRequest` invariant of
spec §3 (`prompt` is required and non-empty); an empty prompt would fail
earlier with a `ValidationError`. -/
theorem submit_step_without_prior_first_step_fails
    (policy : Int → String → String → Int → List String)
    (gate : ConsolidatedFindings → Bool)
    (render : ConsolidatedFindings → String)
    (store : workflow.Store) (request : ToolRequest)
    (hprompt : request.prompt ≠ "")
    (hstep : 1 < request.step_number)
    (habsent : store.lookup request.continuation_id = none) :
    workflow.submit_step policy gate render store request =
      (Except.error (workflow.WorkflowError.stateError "no prior step for this continuation_id"),
       store) := by
  unfold workflow.submit_step
  rw [if_neg hprompt, if_neg (by omega : ¬request.step_number < 1)]
  simp only [habsent]
  rw [if_neg (by omega : ¬request.step_number = 1)]

/-- Witness for C7: a step-2 request on an empty store fails with the
`StateError` and leaves the store empty. -/
theorem submit_step_without_prior_first_step_fails_witness :
    workflow.submit_step (fun _ _ _ _ => []) (fun _ => true) (fun _ => "")
        ([] : workflow.Store) { prompt := "p", step_number := 2, continuation_id := "A" } =
      (Except.error (workflow.WorkflowError.stateError "no prior step for this continuation_id"),
       ([] : workflow.Store)) :=
  submit_step_without_prior_first_step_fails _ _ _ _ _ (by decide) (by decide) rfl

/-- Counterexample for C4: looking up the unregistered name `frobnicate`
returns the sentinel `none` from `get_tool_info` rather than failing, and the
`call_tool` dispatcher returns an ordinary `Unknown tool: ...` text block —
neither operation fails with a `NotFoundError`. -/
theorem unknown_tool_yields_sentinel_not_error :
    registry.get_tool_info "frobnicate" = none ∧
    server.handle_call_tool "frobnicate" {} =
      [{ type := "text", text := "Unknown tool: frobnicate" }] :=
  ⟨rfl, rfl⟩

/-- Claim C4 (amended), two independent universals: for every name not present
in the registry, `get_tool_info` returns `none` (Python `None`); and for every
tool name not handled by the `call_tool` dispatcher, the call returns the
single normal text block `Unknown tool: {name}`.  The two hypotheses are
independent — registry keys and dispatcher names are disjoint sets — and
neither operation raises a `NotFoundError`. -/
theorem unknown_tool_name_returns_none_and_unknown_text
    (name : String) (arguments : server.CallArguments) :
    (name ∉ registry.get_available_tools → registry.get_tool_info name = none) ∧
    (name ≠ "analyze_tax_logic" → name ≠ "audit_multi_tenant_security" →
      name ≠ "validate_cpa_compliance" →
      server.handle_call_tool name arguments =
        [{ type := "text", text := "Unknown tool: " ++ name }]) := by
  constructor
  · intro hreg
    have hk : name ≠ "tax_calculation_review" ∧ name ≠ "financial_compliance_audit" ∧
        name ≠ "multi_tenant_security_check" := by
      simpa [registry.get_available_tools, registry.CPA_TOOLS, not_or] using hreg
    have e₁ : (name == "tax_calculation_review") = false := beq_eq_false_iff_ne.mpr hk.1
    have e₂ : (name == "financial_compliance_audit") = false := beq_eq_false_iff_ne.mpr hk.2.1
    have e₃ : (name == "multi_tenant_security_check") = false := beq_eq_false_iff_ne.mpr hk.2.2
    simp [registry.get_tool_info, registry.CPA_TOOLS, List.lookup, e₁, e₂, e₃]
  · intro h₁ h₂ h₃
    unfold server.handle_call_tool
    rw [if_neg h₁, if_neg h₂, if_neg h₃]

/-- Witness for C4 (amended): a dispatcher-only name is absent from the
registry, and a registry-only key is unhandled by the dispatcher — the cases
where exactly one of the two universals applies. -/
theorem unknown_tool_name_returns_none_and_unknown_text_witness :
    registry.get_tool_info "analyze_tax_logic" = none ∧
    server.handle_call_tool "tax_calculation_review" {} =
      [{ type := "text", text := "Unknown tool: " ++ "tax_calculation_review" }] :=
  ⟨(unknown_tool_name_returns_none_and_unknown_text "analyze_tax_logic" {}).1 (by decide),
   (unknown_tool_name_returns_none_and_unknown_text "tax_calculation_review" {}).2
     (by decide) (by decide) (by decide)⟩

/-- Counterexample for C8: the shared `files` field is declared in the tax tool
schema with no default whatsoever, refuting that every non-prompt declared
field carries a documented default. -/
theorem files_field_has_no_default :
    ¬ (∀ p ∈ TaxCalculationReviewTool.get_tool_fields,
        p.1 ≠ "prompt" → p.2.default ≠ none) := fun h =>
  h ("files", FILES_FIELD) (by decide) (by decide) rfl

/-- Claim C8 (amended): for each of the three domain tools the required fields
are exactly `["prompt"]`, `prompt` is declared in the field schema, and every
declared field other than `prompt` and the default-less shared `files` field is
optional with a documented default. -/
theorem required_fields_exactly_prompt :
    TaxCalculationReviewTool.get_required_fields = ["prompt"] ∧
    FinancialComplianceAuditTool.get_required_fields = ["prompt"] ∧
    MultiTenantSecurityCheckTool.get_required_fields = ["prompt"] ∧
    (TaxCalculationReviewTool.get_tool_fields.lookup "prompt").isSome = true ∧
    (FinancialComplianceAuditTool.get_tool_fields.lookup "prompt").isSome = true ∧
    (MultiTenantSecurityCheckTool.get_tool_fields.lookup "prompt").isSome = true ∧
    (∀ p ∈ TaxCalculationReviewTool.get_tool_fields,
       p.1 ≠ "prompt" → p.1 ≠ "files" → p.2.default ≠ none) ∧
    (∀ p ∈ FinancialComplianceAuditTool.get_tool_fields,
       p.1 ≠ "prompt" → p.1 ≠ "files" → p.2.default ≠ none) ∧
    (∀ p ∈ MultiTenantSecurityCheckTool.get_tool_fields,
       p.1 ≠ "prompt" → p.1 ≠ "files" → p.2.default ≠ none) := by
  refine ⟨rfl, rfl, rfl, rfl, rfl, rfl, ?_, ?_, ?_⟩ <;> decide

/-- Witness for C8 (amended): the `tax_year` field carries its documented
default. -/
theorem required_fields_exactly_prompt_witness :
    ({ type := "string", description := "Tax year for regulation compliance (e.g., 2024)",
       default := some "2024" } : ToolField).default ≠ none :=
  required_fields_exactly_prompt.2.2.2.2.2.2.1
    ("tax_year",
     { type := "string", description := "Tax year for regulation compliance (e.g., 2024)",
       default := some "2024" })
    (by decide) (by decide) (by decide)

/-- Claim C10: for each of the three domain tools, each optional
domain-specific field default declared in `get_tool_fields` equals the literal
fallback substituted by the prompt renderer when the attribute is absent, so a
request carrying the schema defaults and a request missing those attributes
render identical context text. -/
theorem schema_defaults_match_prompt_fallbacks :
    ((TaxCalculationReviewTool.get_tool_fields.lookup "tax_year").map ToolField.default =
        some (some "2024") ∧
     (TaxCalculationReviewTool.get_tool_fields.lookup "calculation_type").map ToolField.default =
        some (some "federal") ∧
     ∀ r₁ r₂ : ToolRequest, r₁.prompt = r₂.prompt →
       r₁.tax_year = some "2024" → r₂.tax_year = none →
       r₁.calculation_type = some "federal" → r₂.calculation_type = none →
       TaxCalculationReviewTool.tax_context r₁ = TaxCalculationReviewTool.tax_context r₂) ∧
    ((FinancialComplianceAuditTool.get_tool_fields.lookup "compliance_standard").map ToolField.default =
        some (some "SOX") ∧
     (FinancialComplianceAuditTool.get_tool_fields.lookup "audit_scope").map ToolField.default =
        some (some "comprehensive") ∧
     (FinancialComplianceAuditTool.get_tool_fields.lookup "organization_context").map ToolField.default =
        some (some "CPA-firm") ∧
     ∀ r₁ r₂ : ToolRequest, r₁.prompt = r₂.prompt →
       r₁.compliance_standard = some "SOX" → r₂.compliance_standard = none →
       r₁.audit_scope = some "comprehensive" → r₂.audit_scope = none →
       r₁.organization_context = some "CPA-firm" → r₂.organization_context = none →
       FinancialComplianceAuditTool.compliance_context r₁ =
         FinancialComplianceAuditTool.compliance_context r₂) ∧
    ((MultiTenantSecurityCheckTool.get_tool_fields.lookup "audit_focus").map ToolField.default =
        some (some "comprehensive") ∧
     (MultiTenantSecurityCheckTool.get_tool_fields.lookup "threat_model").map ToolField.default =
        some (some "comprehensive") ∧
     (MultiTenantSecurityCheckTool.get_tool_fields.lookup "compliance_requirements").map ToolField.default =
        some (some "SOX") ∧
     ∀ r₁ r₂ : ToolRequest, r₁.prompt = r₂.prompt →
       r₁.audit_focus = some "comprehensive" → r₂.audit_focus = none →
       r₁.threat_model = some "comprehensive" → r₂.threat_model = none →
       r₁.compliance_requirements = some "SOX" → r₂.compliance_requirements = none →
       MultiTenantSecurityCheckTool.security_context r₁ =
         MultiTenantSecurityCheckTool.security_context r₂) := by
  refine ⟨⟨rfl, rfl, ?_⟩, ⟨rfl, rfl, rfl, ?_⟩, ⟨rfl, rfl, rfl, ?_⟩⟩
  · intro r₁ r₂ hp h₁ h₂ h₃ h₄
    simp only [TaxCalculationReviewTool.tax_context, hp, h₁, h₂, h₃, h₄,
      Option.getD_some, Option.getD_none]
  · intro r₁ r₂ hp h₁ h₂ h₃ h₄ h₅ h₆
    simp only [FinancialComplianceAuditTool.compliance_context, hp, h₁, h₂, h₃, h₄, h₅, h₆,
      Option.getD_some, Option.getD_none]
  · intro r₁ r₂ hp h₁ h₂ h₃ h₄ h₅ h₆
    simp only [MultiTenantSecurityCheckTool.security_context, hp, h₁, h₂, h₃, h₄, h₅, h₆,
      Option.getD_some, Option.getD_none]

/-- Witness for C10: a request carrying the schema defaults and one missing the
attributes render identical context text in each tool. -/
theorem schema_defaults_match_prompt_fallbacks_witness :
    TaxCalculationReviewTool.tax_context
        { prompt := "P", tax_year := some "2024", calculation_type := some "federal" } =
      TaxCalculationReviewTool.tax_context { prompt := "P" } ∧
    FinancialComplianceAuditTool.compliance_context
        { prompt := "P", compliance_standard := some "SOX",
          audit_scope := some "comprehensive", organization_context := some "CPA-firm" } =
      FinancialComplianceAuditTool.compliance_context { prompt := "P" } ∧
    MultiTenantSecurityCheckTool.security_context
        { prompt := "P", audit_focus := some "comprehensive",
          threat_model := some "comprehensive", compliance_requirements := some "SOX" } =
      MultiTenantSecurityCheckTool.security_context { prompt := "P" } :=
  ⟨schema_defaults_match_prompt_fallbacks.1.2.2 _ _ rfl rfl rfl rfl rfl,
   schema_defaults_match_prompt_fallbacks.2.1.2.2.2 _ _ rfl rfl rfl rfl rfl rfl rfl,
   schema_defaults_match_prompt_fallbacks.2.2.2.2.2 _ _ rfl rfl rfl rfl rfl rfl rfl⟩

end AdvisorOS
